import Mathlib

/-!
Verification of the ICA declaration backend against its design document.

The Python backend (FastAPI + SQLAlchemy) is shallowly embedded: the pure
calculation engine (`app/services/calculation_engine.py`) becomes pure Lean
functions, the SQLAlchemy rows (`app/models/models.py`) become structures, and
the lifecycle endpoints (`app/api/endpoints/declarations.py`) become explicit
state-passing functions over a list of declaration rows.  Python `float`
values are modelled as exact rationals (`ℚ`); every formula under study is a
plain arithmetic identity, so the rational model captures the conventions
(sums vs. differences, per-mille vs. percent, sign splits) the design talks
about.  `None` is modelled by `Option`; Python truthiness on numbers (`x or
d`) maps `none` and `0` to the default.
-/

namespace ICA

/-! Calculation engine: `app/services/calculation_engine.py`. -/

/-- Engine input mirroring dataclass `IncomeData` (calculation_engine.py lines 10-19). -/
structure IncomeData where
  row_8_ordinary_income : ℚ := 0
  row_9_extraordinary_income : ℚ := 0
  row_11_returns : ℚ := 0
  row_12_exports : ℚ := 0
  row_13_fixed_assets_sales : ℚ := 0
  row_14_excluded_income : ℚ := 0
  row_15_non_taxable_income : ℚ := 0
deriving DecidableEq

/-- Engine input mirroring dataclass `ActivityData` (calculation_engine.py lines 22-27). -/
structure ActivityData where
  ciiu_code : String
  income : ℚ
  tax_rate : ℚ
deriving DecidableEq

/-- Engine input mirroring dataclass `SettlementData` (calculation_engine.py lines 30-34). -/
structure SettlementData where
  row_31_signs_boards : ℚ := 0
  row_32_surcharge : ℚ := 0
deriving DecidableEq

/-- Engine input mirroring dataclass `CreditsData` (calculation_engine.py lines 37-42). -/
structure CreditsData where
  tax_discounts : ℚ := 0
  advance_payments : ℚ := 0
  withholdings : ℚ := 0
deriving DecidableEq

/-- One entry of the `taxes` list built by `calculate_total_activities_tax`. -/
structure ActivityTaxEntry where
  ciiu_code : String
  income : ℚ
  tax_rate : ℚ
  generated_tax : ℚ
deriving DecidableEq

/-- Engine output mirroring dataclass `CalculationResult` (calculation_engine.py lines 45-65). -/
structure CalculationResult where
  row_10_total_income : ℚ
  row_16_taxable_income : ℚ
  activities_taxes : List ActivityTaxEntry
  total_activities_tax : ℚ
  row_30_ica_tax : ℚ
  row_33_total_tax : ℚ
  total_credits : ℚ
  amount_to_pay : ℚ
  balance_in_favor : ℚ
deriving DecidableEq

/-- `ICACalculationEngine.calculate_total_income` (calculation_engine.py lines 74-80):
`R10 = R8 + R9`. -/
def calculate_total_income (data : IncomeData) : ℚ :=
  data.row_8_ordinary_income + data.row_9_extraordinary_income

/-- `ICACalculationEngine.calculate_taxable_income` (calculation_engine.py lines 82-99):
`R16 = max(0, R10 - (R11 + R12 + R13 + R14 + R15))`. -/
def calculate_taxable_income (data : IncomeData) : ℚ :=
  let total_income := calculate_total_income data
  let deductions :=
    data.row_11_returns +
    data.row_12_exports +
    data.row_13_fixed_assets_sales +
    data.row_14_excluded_income +
    data.row_15_non_taxable_income
  max 0 (total_income - deductions)

/-- `ICACalculationEngine.calculate_activity_tax` (calculation_engine.py lines 101-108):
`impuesto = ingresos * tarifa / 1000`. -/
def calculate_activity_tax (activity : ActivityData) : ℚ :=
  activity.income * activity.tax_rate / 1000

/-- `ICACalculationEngine.calculate_total_activities_tax` (calculation_engine.py
lines 110-129): the accumulating loop over the activity list, returning the
per-activity entries and the running total. -/
def calculate_total_activities_tax (activities : List ActivityData) :
    List ActivityTaxEntry × ℚ :=
  activities.foldl
    (fun acc activity =>
      let tax := calculate_activity_tax activity
      (acc.1 ++ [⟨activity.ciiu_code, activity.income, activity.tax_rate, tax⟩],
       acc.2 + tax))
    ([], 0)

/-- `ICACalculationEngine.calculate_total_tax` (calculation_engine.py lines 131-144):
`R33 = R30 + R31 + R32`. -/
def calculate_total_tax (ica_tax : ℚ) (settlement : SettlementData) : ℚ :=
  ica_tax + settlement.row_31_signs_boards + settlement.row_32_surcharge

/-- `ICACalculationEngine.calculate_total_credits` (calculation_engine.py lines 146-156). -/
def calculate_total_credits (credits : CreditsData) : ℚ :=
  credits.tax_discounts + credits.advance_payments + credits.withholdings

/-- `ICACalculationEngine.calculate_final_result` (calculation_engine.py lines 158-176):
`result = total_tax - total_credits`; positive results become the amount to pay,
otherwise the absolute value becomes the balance in favor. -/
def calculate_final_result (total_tax total_credits : ℚ) : ℚ × ℚ :=
  let result := total_tax - total_credits
  if result > 0 then (result, 0) else (0, |result|)

/-- `ICACalculationEngine.calculate_full_declaration` (calculation_engine.py
lines 178-218): the full cascade. -/
def calculate_full_declaration (income_data : IncomeData)
    (activities : List ActivityData) (settlement : SettlementData)
    (credits : CreditsData) : CalculationResult :=
  let row_10 := calculate_total_income income_data
  let row_16 := calculate_taxable_income income_data
  let acc := calculate_total_activities_tax activities
  let row_30 := acc.2
  let row_33 := calculate_total_tax row_30 settlement
  let total_credits := calculate_total_credits credits
  let final := calculate_final_result row_33 total_credits
  { row_10_total_income := row_10
    row_16_taxable_income := row_16
    activities_taxes := acc.1
    total_activities_tax := row_30
    row_30_ica_tax := row_30
    row_33_total_tax := row_33
    total_credits := total_credits
    amount_to_pay := final.1
    balance_in_favor := final.2 }

/-! Data model: `app/models/models.py`.  Each structure mirrors the columns of
the corresponding SQLAlchemy table that the endpoints under study touch. -/

/-- Enum `DeclarationType` (models.py lines 39-47). -/
inductive DeclarationType where
  | inicial
  | correccion
  | correccion_disminuye
  | correccion_aumenta
deriving DecidableEq

/-- Enum `FormStatus` (models.py lines 50-55). -/
inductive FormStatus where
  | borrador
  | completado
  | firmado
  | anulado
deriving DecidableEq

/-- Table `income_bases` (models.py lines 341-415): section-B columns plus the
legacy columns, without the computed properties. -/
structure IncomeBase where
  row_8_total_income_country : ℚ := 0
  row_9_income_outside_municipality : ℚ := 0
  row_11_returns_rebates_discounts : ℚ := 0
  row_12_exports_fixed_assets : ℚ := 0
  row_13_excluded_non_taxable : ℚ := 0
  row_14_exempt_income : ℚ := 0
  row_8_ordinary_income : ℚ := 0
  row_9_extraordinary_income : ℚ := 0
  row_11_returns : ℚ := 0
  row_12_exports : ℚ := 0
  row_13_fixed_assets_sales : ℚ := 0
  row_14_excluded_income : ℚ := 0
  row_15_non_taxable_income : ℚ := 0
deriving DecidableEq

/-- Property `IncomeBase.row_10_total_income_municipality` (models.py lines 385-388):
`R10 = R8 - R9` on the section-B columns. -/
def IncomeBase.row_10_total_income_municipality (ib : IncomeBase) : ℚ :=
  ib.row_8_total_income_country - ib.row_9_income_outside_municipality

/-- Property `IncomeBase.row_15_taxable_income` (models.py lines 395-407). -/
def IncomeBase.row_15_taxable_income (ib : IncomeBase) : ℚ :=
  let deductions :=
    ib.row_11_returns_rebates_discounts +
    ib.row_12_exports_fixed_assets +
    ib.row_13_excluded_non_taxable +
    ib.row_14_exempt_income
  max 0 (ib.row_10_total_income_municipality - deductions)

/-- Table `taxable_activities` (models.py lines 438-455). -/
structure TaxableActivity where
  activity_type : String := "principal"
  ciiu_code : String
  description : String := ""
  income : ℚ := 0
  tax_rate : ℚ := 0
  special_rate : Option ℚ := none
deriving DecidableEq

/-- Property `TaxableActivity.generated_tax` (models.py lines 457-461):
`rate = self.special_rate if self.special_rate else self.tax_rate`, then
`income * rate / 1000`.  Python truthiness sends both `None` and `0` to the
standard rate. -/
def TaxableActivity.generated_tax (t : TaxableActivity) : ℚ :=
  let rate : ℚ :=
    match t.special_rate with
    | none => t.tax_rate
    | some r => if r = 0 then t.tax_rate else r
  t.income * rate / 1000

/-- Table `energy_generation` (models.py lines 467-484). -/
structure EnergyGeneration where
  installed_capacity_kw : ℚ := 0
  law_56_tax : ℚ := 0
deriving DecidableEq

/-- Table `tax_settlements` (models.py lines 487-566): editable columns only. -/
structure TaxSettlement where
  row_20_total_ica_tax : ℚ := 0
  row_21_signs_boards : ℚ := 0
  row_22_financial_additional_units : ℚ := 0
  row_23_bomberil_surcharge : ℚ := 0
  row_24_security_surcharge : ℚ := 0
  row_26_exemptions : ℚ := 0
  row_27_withholdings_municipality : ℚ := 0
  row_28_self_withholdings : ℚ := 0
  row_29_previous_advance : ℚ := 0
  row_30_next_year_advance : ℚ := 0
  row_31_penalties : ℚ := 0
  row_31_penalty_type : Option String := none
  row_31_penalty_other_description : Option String := none
  row_32_previous_balance_favor : ℚ := 0
  row_30_ica_tax : ℚ := 0
  row_31_signs_boards : ℚ := 0
  row_32_surcharge : ℚ := 0
deriving DecidableEq

/-- Table `payment_sections` (models.py lines 569-606): editable columns only. -/
structure PaymentSection where
  row_35_amount_to_pay : ℚ := 0
  row_36_early_payment_discount : ℚ := 0
  row_37_late_interest : ℚ := 0
  row_39_voluntary_payment : ℚ := 0
  row_39_voluntary_destination : Option String := none
deriving DecidableEq

/-- Table `discounts_credits` (models.py lines 612-629). -/
structure DiscountsCredits where
  tax_discounts : ℚ := 0
  advance_payments : ℚ := 0
  withholdings : ℚ := 0
deriving DecidableEq

/-- Table `declaration_results` (models.py lines 635-650). -/
structure DeclarationResult where
  amount_to_pay : ℚ := 0
  balance_in_favor : ℚ := 0
deriving DecidableEq

/-- Table `taxpayers` (models.py lines 295-338): the columns the correction
endpoint copies. -/
structure Taxpayer where
  document_type : String
  document_number : String
  verification_digit : Option String := none
  legal_name : String
  entity_type : String := "privada"
  address : Option String := none
  notification_department : Option String := none
  notification_municipality : Option String := none
  municipality : Option String := none
  department : Option String := none
  phone : Option String := none
  email : Option String := none
  num_establishments : ℕ := 1
  taxpayer_classification : String := "comun"
deriving DecidableEq

/-- Table `ica_declarations` (models.py lines 241-292) together with its child
relationships, as one in-memory row.  The table defines NO `has_been_corrected`
column even though `declarations.py` reads and writes that attribute (the
response schema `schemas.py` line 775 and the test-suite expect it); the field
`has_been_corrected_attr` models the raw Python attribute: `none` means the
attribute is absent — as on every row freshly loaded from the database — so
that reading it raises `AttributeError`; `some b` models an instance on which
the attribute was set in memory. -/
structure Declaration where
  id : ℕ
  tax_year : ℤ
  declaration_type : DeclarationType := .inicial
  form_number : String
  filing_number : Option String := none
  status : FormStatus := .borrador
  user_id : ℕ
  municipality_id : ℕ
  correction_of_id : Option ℕ := none
  is_signed : Bool := false
  signature_data : Option String := none
  signed_at : Option String := none
  filing_date : Option String := none
  signed_by_user_id : Option ℕ := none
  integrity_hash : Option String := none
  has_been_corrected_attr : Option Bool := none
  taxpayer : Option Taxpayer := none
  income_base : Option IncomeBase := none
  activities : List TaxableActivity := []
  energy_generation : Option EnergyGeneration := none
  settlement : Option TaxSettlement := none
  payment_section : Option PaymentSection := none
  discounts : Option DiscountsCredits := none
  result : Option DeclarationResult := none
deriving DecidableEq

/-- Numbering columns of table `white_label_configs` (models.py lines 174-183).
Integer columns are `Option ℕ` so that a NULL cell is representable; the
endpoints guard every read with Python `or`. -/
structure WhiteLabelConfig where
  radicado_prefijo : Option String := some ""
  radicado_actual : Option ℕ := some 1
  radicado_digitos : Option ℕ := some 16
deriving DecidableEq

/-! Endpoints: `app/api/endpoints/declarations.py`.  Each endpoint becomes a
function from the persistent state (the list of declaration rows, plus the
per-municipality white-label configs where numbering is involved) to a new
state.  An `HTTPException` raise becomes an `ApiError`; since every raise in
these endpoints happens before `db.commit()`, an error leaves the state
untouched.  Values the endpoints obtain from the environment (fresh ids,
generated form numbers, the clock, the SHA-256 function) are passed as
arguments. -/

/-- Error outcomes of the declaration endpoints.  The first seven correspond to
`HTTPException`s raised in declarations.py; `attributeError` models a Python
`AttributeError` escaping the handler (HTTP 500), which happens when
`declaration.has_been_corrected` is read on a row whose table has no such
column. -/
inductive ApiError where
  | notFound
  | forbidden
  | cannotModifySigned
  | alreadySigned
  | notSigned
  | alreadyCorrected
  | cannotCorrectACorrection
  | attributeError
deriving DecidableEq

/-- Python `x or d` on an optional non-negative integer column: `None` and `0`
are falsy and give the default. -/
def pyOrNat (v : Option ℕ) (dflt : ℕ) : ℕ :=
  match v with
  | none => dflt
  | some 0 => dflt
  | some k => k

/-- Python `s or ""` on an optional string column (`None` and `""` both give `""`). -/
def pyOrStr (v : Option String) : String := v.getD ""

/-- Python `str.zfill` for the non-negative numbers used here: left-pad with
zeros up to `width`. -/
def zfill (s : String) (width : ℕ) : String :=
  if width ≤ s.length then s else String.mk (List.replicate (width - s.length) '0') ++ s

/-- Radicado allocation inside `sign_declaration` (declarations.py lines 509-519):
`prefijo = config.radicado_prefijo or ""`, `numero = config.radicado_actual or 1`,
`digitos = config.radicado_digitos or 16`, filing number
`f"{prefijo}{str(numero).zfill(digitos)}"`, then `config.radicado_actual = numero + 1`. -/
def allocate_radicado (config : WhiteLabelConfig) : String × WhiteLabelConfig :=
  let prefijo := pyOrStr config.radicado_prefijo
  let numero := pyOrNat config.radicado_actual 1
  let digitos := pyOrNat config.radicado_digitos 16
  (prefijo ++ zfill (toString numero) digitos,
   { config with radicado_actual := some (numero + 1) })

/-- Server-side persistent state touched by the endpoints under study. -/
structure ServerState where
  declarations : List Declaration
  configs : List (ℕ × WhiteLabelConfig)
deriving DecidableEq

/-- Mapping of `IncomeBase` columns into the engine's `IncomeData`
(declarations.py lines 409-417): the legacy columns, with `0` when the
declaration has no income-base row. -/
def engineIncomeData (ib : Option IncomeBase) : IncomeData :=
  match ib with
  | some b =>
    { row_8_ordinary_income := b.row_8_ordinary_income
      row_9_extraordinary_income := b.row_9_extraordinary_income
      row_11_returns := b.row_11_returns
      row_12_exports := b.row_12_exports
      row_13_fixed_assets_sales := b.row_13_fixed_assets_sales
      row_14_excluded_income := b.row_14_excluded_income
      row_15_non_taxable_income := b.row_15_non_taxable_income }
  | none => {}

/-- Mapping of a `TaxableActivity` row into the engine's `ActivityData`
(declarations.py lines 419-426): `special_rate` is dropped. -/
def engineActivityData (a : TaxableActivity) : ActivityData :=
  { ciiu_code := a.ciiu_code, income := a.income, tax_rate := a.tax_rate }

/-- Mapping of `TaxSettlement` columns into the engine's `SettlementData`
(declarations.py lines 428-431): the legacy columns `row_31_signs_boards` and
`row_32_surcharge`. -/
def engineSettlementData (s : Option TaxSettlement) : SettlementData :=
  match s with
  | some s => { row_31_signs_boards := s.row_31_signs_boards, row_32_surcharge := s.row_32_surcharge }
  | none => {}

/-- Mapping of `DiscountsCredits` columns into the engine's `CreditsData`
(declarations.py lines 433-437). -/
def engineCreditsData (c : Option DiscountsCredits) : CreditsData :=
  match c with
  | some c =>
    { tax_discounts := c.tax_discounts
      advance_payments := c.advance_payments
      withholdings := c.withholdings }
  | none => {}

/-- Endpoint `POST /declarations/` (declarations.py lines 47-130).  The caller
supplied `data_municipality_id`, `tax_year`, `declaration_type` and
`correction_of_id`; the user's own municipality takes priority when set; the
municipality must exist; the new declaration is stored in Draft with the
generated `form_number`, the request's `correction_of_id` taken verbatim, and
freshly created empty `Taxpayer`, `IncomeBase`, `TaxSettlement`,
`DiscountsCredits` and `DeclarationResult` children (no `EnergyGeneration`, no
`PaymentSection`). -/
def create_declaration (db : List Declaration) (municipalities : List ℕ)
    (current_user : ℕ) (user_municipality : Option ℕ) (tax_year : ℤ)
    (declaration_type : DeclarationType) (data_municipality_id : ℕ)
    (correction_of_id : Option ℕ) (new_id : ℕ) (form_number : String) :
    Except ApiError (List Declaration) :=
  let municipality_id :=
    match user_municipality with
    | some m => m
    | none => data_municipality_id
  if municipalities.contains municipality_id then
    .ok (db ++ [{
      id := new_id
      tax_year := tax_year
      declaration_type := declaration_type
      user_id := current_user
      municipality_id := municipality_id
      form_number := form_number
      correction_of_id := correction_of_id
      status := .borrador
      taxpayer := some { document_type := "", document_number := "", legal_name := "" }
      income_base := some {}
      settlement := some {}
      discounts := some {}
      result := some {} }])
  else .error .notFound

/-- Endpoint `POST /declarations/{id}/calculate` (declarations.py lines 388-462):
look the declaration up (404 otherwise), feed the engine from the stored rows,
overwrite `settlement.row_30_ica_tax`, `result.amount_to_pay` and
`result.balance_in_favor` with the recomputed values, and return the result.
No status or ownership check appears anywhere in the endpoint;
`current_user` is only authenticated, never compared. -/
def calculate_declaration (db : List Declaration) (declaration_id : ℕ)
    (current_user : ℕ) : Except ApiError (List Declaration × CalculationResult) :=
  match db.find? (fun d => d.id == declaration_id) with
  | none => .error .notFound
  | some declaration =>
    let result := calculate_full_declaration
      (engineIncomeData declaration.income_base)
      (declaration.activities.map engineActivityData)
      (engineSettlementData declaration.settlement)
      (engineCreditsData declaration.discounts)
    let declaration' := { declaration with
      settlement := declaration.settlement.map
        (fun s => { s with row_30_ica_tax := result.row_30_ica_tax })
      result := declaration.result.map
        (fun r => { r with
          amount_to_pay := result.amount_to_pay
          balance_in_favor := result.balance_in_favor }) }
    .ok (db.map (fun d => if d.id == declaration_id then declaration' else d), result)

/-- Endpoint `POST /declarations/{id}/sign` (declarations.py lines 465-596):
404 when absent, 400 when already signed (checked first), 403 when the caller
is not the owner; then the integrity hash is computed over
`f"{id}-{form_number}-{user_id}-{now}"`, the radicado is allocated from the
municipality's config (or a generic `RAD-id-timestamp` fallback), and the
declaration is sealed.  `hashFn` stands for `generate_integrity_hash`
(SHA-256 hex), `now` for `get_colombia_time()`.  On an error the state is
returned untouched, since every raise precedes the commit. -/
def sign_declaration (st : ServerState) (declaration_id current_user : ℕ)
    (signature_image : String) (hashFn : String → String) (now : String) :
    ServerState × Except ApiError String :=
  match st.declarations.find? (fun d => d.id == declaration_id) with
  | none => (st, .error .notFound)
  | some declaration =>
    if declaration.is_signed then (st, .error .alreadySigned)
    else if declaration.user_id ≠ current_user then (st, .error .forbidden)
    else
      let content := toString declaration.id ++ "-" ++ declaration.form_number ++ "-" ++
        toString current_user ++ "-" ++ now
      let integrity_hash := hashFn content
      let numbering :=
        match st.configs.find? (fun c : ℕ × WhiteLabelConfig => c.1 == declaration.municipality_id) with
        | some mc =>
          let alloc := allocate_radicado mc.2
          (alloc.1,
           st.configs.map (fun c : ℕ × WhiteLabelConfig =>
             if c.1 == declaration.municipality_id then (c.1, alloc.2) else c))
        | none => ("RAD-" ++ toString declaration.id ++ "-" ++ now, st.configs)
      let declaration' := { declaration with
        is_signed := true
        signature_data := some signature_image
        signed_at := some now
        filing_date := some now
        filing_number := some numbering.1
        signed_by_user_id := some current_user
        integrity_hash := some integrity_hash
        status := .firmado }
      ({ declarations := st.declarations.map
           (fun d => if d.id == declaration_id then declaration' else d)
         configs := numbering.2 },
       .ok numbering.1)

/-- The `Taxpayer` copy in `create_correction_declaration` (declarations.py
lines 675-694): every column, field by field. -/
def copyTaxpayer (t : Taxpayer) : Taxpayer :=
  { document_type := t.document_type
    document_number := t.document_number
    verification_digit := t.verification_digit
    legal_name := t.legal_name
    entity_type := t.entity_type
    address := t.address
    notification_department := t.notification_department
    notification_municipality := t.notification_municipality
    municipality := t.municipality
    department := t.department
    phone := t.phone
    email := t.email
    num_establishments := t.num_establishments
    taxpayer_classification := t.taxpayer_classification }

/-- The `IncomeBase` copy in `create_correction_declaration` (declarations.py
lines 697-717): every section-B and legacy column. -/
def copyIncomeBase (ib : IncomeBase) : IncomeBase :=
  { row_8_total_income_country := ib.row_8_total_income_country
    row_9_income_outside_municipality := ib.row_9_income_outside_municipality
    row_11_returns_rebates_discounts := ib.row_11_returns_rebates_discounts
    row_12_exports_fixed_assets := ib.row_12_exports_fixed_assets
    row_13_excluded_non_taxable := ib.row_13_excluded_non_taxable
    row_14_exempt_income := ib.row_14_exempt_income
    row_8_ordinary_income := ib.row_8_ordinary_income
    row_9_extraordinary_income := ib.row_9_extraordinary_income
    row_11_returns := ib.row_11_returns
    row_12_exports := ib.row_12_exports
    row_13_fixed_assets_sales := ib.row_13_fixed_assets_sales
    row_14_excluded_income := ib.row_14_excluded_income
    row_15_non_taxable_income := ib.row_15_non_taxable_income }

/-- The `TaxableActivity` copy in `create_correction_declaration`
(declarations.py lines 720-730). -/
def copyActivity (a : TaxableActivity) : TaxableActivity :=
  { activity_type := a.activity_type
    ciiu_code := a.ciiu_code
    description := a.description
    income := a.income
    tax_rate := a.tax_rate
    special_rate := a.special_rate }

/-- The `TaxSettlement` copy in `create_correction_declaration`
(declarations.py lines 733-757): every column. -/
def copySettlement (s : TaxSettlement) : TaxSettlement :=
  { row_20_total_ica_tax := s.row_20_total_ica_tax
    row_21_signs_boards := s.row_21_signs_boards
    row_22_financial_additional_units := s.row_22_financial_additional_units
    row_23_bomberil_surcharge := s.row_23_bomberil_surcharge
    row_24_security_surcharge := s.row_24_security_surcharge
    row_26_exemptions := s.row_26_exemptions
    row_27_withholdings_municipality := s.row_27_withholdings_municipality
    row_28_self_withholdings := s.row_28_self_withholdings
    row_29_previous_advance := s.row_29_previous_advance
    row_30_next_year_advance := s.row_30_next_year_advance
    row_31_penalties := s.row_31_penalties
    row_31_penalty_type := s.row_31_penalty_type
    row_31_penalty_other_description := s.row_31_penalty_other_description
    row_32_previous_balance_favor := s.row_32_previous_balance_favor
    row_30_ica_tax := s.row_30_ica_tax
    row_31_signs_boards := s.row_31_signs_boards
    row_32_surcharge := s.row_32_surcharge }

/-- The `DiscountsCredits` copy in `create_correction_declaration`
(declarations.py lines 760-768). -/
def copyDiscounts (d : DiscountsCredits) : DiscountsCredits :=
  { tax_discounts := d.tax_discounts
    advance_payments := d.advance_payments
    withholdings := d.withholdings }

/-- The `DeclarationResult` copy in `create_correction_declaration`
(declarations.py lines 771-778). -/
def copyResult (r : DeclarationResult) : DeclarationResult :=
  { amount_to_pay := r.amount_to_pay
    balance_in_favor := r.balance_in_favor }

/-- The spawn step of `create_correction_declaration` (declarations.py lines
655-781), reached once every guard has passed: build the new declaration with
`type=CORRECCION`, `correction_of_id=original.id`, `status=BORRADOR`,
`is_signed=False` and the freshly generated `form_number`; copy `Taxpayer`,
`IncomeBase`, the activity list, `TaxSettlement`, `DiscountsCredits` and
`DeclarationResult` row by row — the endpoint creates no `EnergyGeneration`
and no `PaymentSection` row for the correction — and set the in-memory
attribute `has_been_corrected` on the original (line 781).  Returns
(correction, updated original). -/
def spawnCorrection (original : Declaration) (current_user new_id : ℕ)
    (form_number : String) : Declaration × Declaration :=
  let correction : Declaration :=
    { id := new_id
      tax_year := original.tax_year
      declaration_type := .correccion
      user_id := current_user
      municipality_id := original.municipality_id
      form_number := form_number
      correction_of_id := some original.id
      status := .borrador
      is_signed := false
      taxpayer := original.taxpayer.map copyTaxpayer
      income_base := original.income_base.map copyIncomeBase
      activities := original.activities.map copyActivity
      settlement := original.settlement.map copySettlement
      discounts := original.discounts.map copyDiscounts
      result := original.result.map copyResult }
  (correction, { original with has_been_corrected_attr := some true })

/-- Endpoint `POST /declarations/{id}/correct` (declarations.py lines 599-803).
Guards in source order: 404 when absent (line 619), 403 when the caller is not
the owner (line 626), 400 `NotSigned` when unsigned (line 633), then line 640
reads `original.has_been_corrected` — an attribute `ica_declarations` does not
define, so on a row freshly loaded from the database (`has_been_corrected_attr
= none`) Python raises `AttributeError`; when the attribute is present, `True`
gives 400 `AlreadyCorrected` and `False` falls through to the
`correction_of_id` guard (line 648, `CannotCorrectACorrection`), after which
the correction is spawned and committed. -/
def create_correction_declaration (db : List Declaration)
    (declaration_id current_user new_id : ℕ) (form_number : String) :
    Except ApiError (List Declaration) :=
  match db.find? (fun d => d.id == declaration_id) with
  | none => .error .notFound
  | some original =>
    if original.user_id ≠ current_user then .error .forbidden
    else if original.is_signed = false then .error .notSigned
    else
      match original.has_been_corrected_attr with
      | none => .error .attributeError
      | some true => .error .alreadyCorrected
      | some false =>
        if original.correction_of_id.isSome then .error .cannotCorrectACorrection
        else
          let p := spawnCorrection original current_user new_id form_number
          .ok (db.map (fun d => if d.id == declaration_id then p.2 else d) ++ [p.1])

/-- The activity-tax computation in `generate_pdf` (declarations.py lines
930-942): `tax = income * rate / 100` — a percentage, not per-mille — using
only `tax_rate` and never `special_rate`. -/
def pdf_activity_tax (activity : TaxableActivity) : ℚ :=
  activity.income * activity.tax_rate / 100

/-- The running total `total_activities_tax` of the `generate_pdf` loop
(declarations.py lines 928-935). -/
def pdf_total_activities_tax (activities : List TaxableActivity) : ℚ :=
  activities.foldl (fun total a => total + pdf_activity_tax a) 0

/-- Row 10 as recomputed by `generate_pdf` (declarations.py line 909):
`(row_8_total_income_country or 0) - (row_9_income_outside_municipality or 0)`. -/
def pdf_row_10 (ib : IncomeBase) : ℚ :=
  ib.row_8_total_income_country - ib.row_9_income_outside_municipality

/-- Invariant of claim C4: at most one declaration of type Correction
references a given original through `correction_of_id`. -/
def CorrectionUnique (db : List Declaration) : Prop :=
  ∀ original_id : ℕ,
    (db.filter (fun d =>
      decide (d.declaration_type = .correccion ∧ d.correction_of_id = some original_id))).length ≤ 1

/-! Helper lemmas shared by the claim theorems. -/

/-- The field-by-field clone of an `IncomeBase` row reproduces the row. -/
lemma copyIncomeBase_eq (ib : IncomeBase) : copyIncomeBase ib = ib := rfl

/-- The field-by-field clone of a `Taxpayer` row reproduces the row. -/
lemma copyTaxpayer_eq (t : Taxpayer) : copyTaxpayer t = t := rfl

/-- The field-by-field clone of a `TaxableActivity` row reproduces the row. -/
lemma copyActivity_eq (a : TaxableActivity) : copyActivity a = a := rfl

/-- The field-by-field clone of a `TaxSettlement` row reproduces the row. -/
lemma copySettlement_eq (s : TaxSettlement) : copySettlement s = s := rfl

/-- The field-by-field clone of a `DiscountsCredits` row reproduces the row. -/
lemma copyDiscounts_eq (d : DiscountsCredits) : copyDiscounts d = d := rfl

/-- The field-by-field clone of a `DeclarationResult` row reproduces the row. -/
lemma copyResult_eq (r : DeclarationResult) : copyResult r = r := rfl

/-- Unrolling of the accumulating loop of `calculate_total_activities_tax`. -/
lemma total_activities_foldl (l : List ActivityData) :
    ∀ acc : List ActivityTaxEntry × ℚ,
    l.foldl
      (fun acc activity =>
        let tax := calculate_activity_tax activity
        (acc.1 ++ [⟨activity.ciiu_code, activity.income, activity.tax_rate, tax⟩],
         acc.2 + tax)) acc
    = (acc.1 ++ l.map (fun x =>
        ⟨x.ciiu_code, x.income, x.tax_rate, calculate_activity_tax x⟩),
       acc.2 + (l.map calculate_activity_tax).sum) := by
  induction l with
  | nil => intro acc; simp
  | cons a t ih =>
    intro acc
    simp only [List.foldl_cons, List.map_cons, List.sum_cons]
    rw [ih]
    simp [add_assoc]

/-- Closed form of `calculate_total_activities_tax`: the entry list records
each activity with its per-mille tax, the total is the sum of the per-activity
taxes. -/
lemma calculate_total_activities_tax_eq (l : List ActivityData) :
    calculate_total_activities_tax l
      = (l.map (fun x => ⟨x.ciiu_code, x.income, x.tax_rate, calculate_activity_tax x⟩),
         (l.map calculate_activity_tax).sum) := by
  unfold calculate_total_activities_tax
  rw [total_activities_foldl]
  simp

/-- Unrolling of the accumulating loop of `pdf_total_activities_tax`. -/
lemma pdf_total_foldl (l : List TaxableActivity) :
    ∀ init : ℚ,
    l.foldl (fun total a => total + pdf_activity_tax a) init
      = init + (l.map pdf_activity_tax).sum := by
  induction l with
  | nil => intro init; simp
  | cons a t ih =>
    intro init
    simp only [List.foldl_cons, List.map_cons, List.sum_cons]
    rw [ih, add_assoc]

/-! Claim C1. -/

/-- Concrete income-base row for claim C1: the taxpayer reported
10,000,000 of country-wide gross income and 1,000,000 earned outside the
municipality, entered both under the section-B columns and under the legacy
columns the engine reads. -/
def c1_income_base : IncomeBase :=
  { row_8_total_income_country := 10000000
    row_9_income_outside_municipality := 1000000
    row_8_ordinary_income := 10000000
    row_9_extraordinary_income := 1000000 }

/-- Claim C1 is false on the code: on the snapshot `c1_income_base` the
engine's total-income function (fed exactly as the calculate endpoint feeds
it) returns the SUM 11,000,000, while `grossIncomeCountry −
incomeOutsideMunicipality` is 9,000,000. -/
theorem c1_engine_total_income_not_subtraction :
    calculate_total_income (engineIncomeData (some c1_income_base)) = 11000000 ∧
    c1_income_base.row_10_total_income_municipality = 9000000 ∧
    calculate_total_income (engineIncomeData (some c1_income_base))
      ≠ c1_income_base.row_10_total_income_municipality := by
  refine ⟨?_, ?_, ?_⟩ <;>
    norm_num [calculate_total_income, engineIncomeData, c1_income_base,
      IncomeBase.row_10_total_income_municipality]

/-- Claim C1 amended: the engine's `calculate_total_income` computes the sum
of its two (legacy ordinary/extraordinary) income fields; the subtraction
`grossIncomeCountry − incomeOutsideMunicipality` of the spec is computed by
the model property `row_10_total_income_municipality` and by the PDF path,
not by the engine. -/
theorem c1_engine_sums_model_subtracts (ib : IncomeBase) :
    calculate_total_income (engineIncomeData (some ib))
      = ib.row_8_ordinary_income + ib.row_9_extraordinary_income ∧
    ib.row_10_total_income_municipality
      = ib.row_8_total_income_country - ib.row_9_income_outside_municipality ∧
    pdf_row_10 ib = ib.row_10_total_income_municipality :=
  ⟨rfl, rfl, rfl⟩

/-! Claim C6. -/

/-- Claim C6 confirmed: the final split of `calculate_final_result` pays the
net balance when it is positive and books the absolute value as balance in
favor otherwise, and at least one of the two outputs is always zero, so they
are never simultaneously positive. -/
theorem c6_final_result_split (total_tax total_credits : ℚ) :
    (calculate_final_result total_tax total_credits).1
      = (if total_tax - total_credits > 0 then total_tax - total_credits else 0) ∧
    (calculate_final_result total_tax total_credits).2
      = (if total_tax - total_credits > 0 then 0 else |total_tax - total_credits|) ∧
    ((calculate_final_result total_tax total_credits).1 = 0 ∨
     (calculate_final_result total_tax total_credits).2 = 0) := by
  unfold calculate_final_result
  by_cases h : total_tax - total_credits > 0 <;> simp [h]

/-! Claim C7. -/

/-- Concrete activity for claim C7: income 7,000,000 at the per-mille rate
4.14‰ (no special rate). -/
def c7_activity : TaxableActivity :=
  { ciiu_code := "G4711", income := 7000000, tax_rate := 207 / 50 }

/-- Claim C7 is false on the code: the PDF generation path divides by 100
instead of 1000, so on `c7_activity` it produces 289,800 where the claimed
per-mille formula gives 28,980. -/
theorem c7_pdf_path_percent_not_permille :
    pdf_activity_tax c7_activity = 289800 ∧
    c7_activity.income * ((c7_activity.special_rate).getD c7_activity.tax_rate) / 1000
      = 28980 ∧
    pdf_activity_tax c7_activity
      ≠ c7_activity.income * ((c7_activity.special_rate).getD c7_activity.tax_rate) / 1000 := by
  refine ⟨?_, ?_, ?_⟩ <;> norm_num [pdf_activity_tax, c7_activity]

/-- Claim C7 amended: the engine and the model property use the per-mille
convention (`income × rate / 1000`, the model property preferring a truthy —
present and non-zero — special rate) and total by summation, but the PDF path
uses `income × standardRate / 100`, ten times the engine value, and ignores
`special_rate`; the engine path also ignores `special_rate` because the
endpoint maps only `tax_rate` into `ActivityData`. -/
theorem c7_activity_tax_conventions (a : ActivityData) (l : List ActivityData)
    (t : TaxableActivity) (lt : List TaxableActivity) :
    calculate_activity_tax a = a.income * a.tax_rate / 1000 ∧
    (calculate_total_activities_tax l).2 = (l.map calculate_activity_tax).sum ∧
    t.generated_tax
      = t.income *
        (match t.special_rate with
         | none => t.tax_rate
         | some r => if r = 0 then t.tax_rate else r) / 1000 ∧
    pdf_activity_tax t = 10 * calculate_activity_tax (engineActivityData t) ∧
    pdf_total_activities_tax lt = (lt.map pdf_activity_tax).sum := by
  refine ⟨rfl, ?_, rfl, ?_, ?_⟩
  · rw [calculate_total_activities_tax_eq]
  · unfold pdf_activity_tax calculate_activity_tax engineActivityData
    ring
  · unfold pdf_total_activities_tax
    rw [pdf_total_foldl]
    simp

/-! Claim C2. -/

/-- Concrete original declaration for claim C2: signed Initial declaration of
user 7 carrying every kind of child row, including an `EnergyGeneration` row
and a `PaymentSection` row. -/
def c2_original : Declaration :=
  { id := 1
    tax_year := 2024
    declaration_type := .inicial
    form_number := "ICA-001-2024-1"
    user_id := 7
    municipality_id := 1
    is_signed := true
    status := .firmado
    taxpayer := some { document_type := "CC", document_number := "123", legal_name := "Ana" }
    income_base := some { row_8_total_income_country := 10000000 }
    activities := [{ ciiu_code := "G4711", income := 7000000, tax_rate := 207 / 50 }]
    energy_generation := some { installed_capacity_kw := 100, law_56_tax := 50 }
    settlement := some { row_21_signs_boards := 10 }
    payment_section := some { row_35_amount_to_pay := 5 }
    discounts := some { tax_discounts := 1 }
    result := some { amount_to_pay := 2 } }

/-- Claim C2 is false on the code: the correction spawned from `c2_original`
carries no `EnergyGeneration` and no `PaymentSection` row even though the
original has both — the copy loop of the endpoint never touches those two
child kinds. -/
theorem c2_correction_missing_children :
    (spawnCorrection c2_original 7 2 "ICA-001-2024-2").1.energy_generation = none ∧
    (spawnCorrection c2_original 7 2 "ICA-001-2024-2").1.payment_section = none ∧
    c2_original.energy_generation ≠ none ∧
    c2_original.payment_section ≠ none := by
  refine ⟨rfl, rfl, ?_, ?_⟩ <;> simp [c2_original]

/-- Claim C2 amended: the spawn step of `correct()` builds the new declaration
with type Correction, `correction_of_id` pointing at the original, Draft
status, unsigned, the freshly generated form number, and copies of the
`Taxpayer`, `IncomeBase`, `TaxableActivity`, `TaxSettlement`,
`DiscountsCredits` and `DeclarationResult` rows — but no `EnergyGeneration`
and no `PaymentSection` row — while the original only gets the in-memory
attribute `has_been_corrected = True` (never persisted, see C3). -/
theorem c2_spawn_correction_copies (original : Declaration)
    (current_user new_id : ℕ) (form_number : String) :
    (spawnCorrection original current_user new_id form_number).1.declaration_type
      = .correccion ∧
    (spawnCorrection original current_user new_id form_number).1.correction_of_id
      = some original.id ∧
    (spawnCorrection original current_user new_id form_number).1.status = .borrador ∧
    (spawnCorrection original current_user new_id form_number).1.is_signed = false ∧
    (spawnCorrection original current_user new_id form_number).1.form_number
      = form_number ∧
    (spawnCorrection original current_user new_id form_number).1.taxpayer
      = original.taxpayer ∧
    (spawnCorrection original current_user new_id form_number).1.income_base
      = original.income_base ∧
    (spawnCorrection original current_user new_id form_number).1.activities
      = original.activities ∧
    (spawnCorrection original current_user new_id form_number).1.settlement
      = original.settlement ∧
    (spawnCorrection original current_user new_id form_number).1.discounts
      = original.discounts ∧
    (spawnCorrection original current_user new_id form_number).1.result
      = original.result ∧
    (spawnCorrection original current_user new_id form_number).1.energy_generation
      = none ∧
    (spawnCorrection original current_user new_id form_number).1.payment_section
      = none ∧
    (spawnCorrection original current_user new_id form_number).2
      = { original with has_been_corrected_attr := some true } := by
  refine ⟨rfl, rfl, rfl, rfl, rfl, ?_, ?_, ?_, ?_, ?_, ?_, rfl, rfl, rfl⟩
  · show original.taxpayer.map copyTaxpayer = original.taxpayer
    cases original.taxpayer <;> simp [copyTaxpayer_eq]
  · show original.income_base.map copyIncomeBase = original.income_base
    cases original.income_base <;> simp [copyIncomeBase_eq]
  · show original.activities.map copyActivity = original.activities
    induction original.activities with
    | nil => rfl
    | cons a t ih => simp [ih, copyActivity_eq]
  · show original.settlement.map copySettlement = original.settlement
    cases original.settlement <;> simp [copySettlement_eq]
  · show original.discounts.map copyDiscounts = original.discounts
    cases original.discounts <;> simp [copyDiscounts_eq]
  · show original.result.map copyResult = original.result
    cases original.result <;> simp [copyResult_eq]

/-! Claim C3. -/

/-- Claim C3: what the code actually does.  On any database-loaded state —
where the `has_been_corrected` attribute is absent, because `ica_declarations`
defines no such column — the FIRST `correct()` on a signed declaration by its
owner raises `AttributeError` (HTTP 500) at the line reading
`original.has_been_corrected`, instead of succeeding; consequently no
`correct()` ever succeeds and the flag is never persisted. -/
theorem c3_first_correct_raises_attribute_error (db : List Declaration)
    (declaration_id current_user new_id : ℕ) (form_number : String)
    (original : Declaration)
    (hfind : db.find? (fun d => d.id == declaration_id) = some original)
    (hattr : original.has_been_corrected_attr = none)
    (howner : original.user_id = current_user)
    (hsigned : original.is_signed = true) :
    create_correction_declaration db declaration_id current_user new_id form_number
      = .error .attributeError := by
  unfold create_correction_declaration
  rw [hfind]
  simp [howner, hsigned, hattr]

/-- Concrete state for claim C3: declaration 1, signed Initial, owned by user
7, freshly loaded (no `has_been_corrected` attribute). -/
def c3_original : Declaration :=
  { id := 1
    tax_year := 2024
    declaration_type := .inicial
    form_number := "ICA-001-2024-1"
    user_id := 7
    municipality_id := 1
    is_signed := true
    status := .firmado }

/-- Witness for claim C3 at the concrete state `[c3_original]`. -/
theorem c3_witness :
    ([c3_original].find? (fun d => d.id == 1) = some c3_original ∧
     c3_original.has_been_corrected_attr = none ∧
     c3_original.user_id = 7 ∧
     c3_original.is_signed = true) ∧
    create_correction_declaration [c3_original] 1 7 2 "ICA-001-2024-2"
      = .error .attributeError :=
  ⟨⟨rfl, rfl, rfl, rfl⟩,
   c3_first_correct_raises_attribute_error [c3_original] 1 7 2 "ICA-001-2024-2"
     c3_original rfl rfl rfl rfl⟩

/-! Claim C4. -/

/-- Unwrap a successful endpoint state; an error yields the empty state. -/
def okD (r : Except ApiError (List Declaration)) : List Declaration :=
  match r with
  | .ok db => db
  | .error _ => []

/-- Concrete original declaration for claim C4. -/
def c4_original : Declaration :=
  { id := 1
    tax_year := 2024
    declaration_type := .inicial
    form_number := "ICA-001-2024-1"
    user_id := 1
    municipality_id := 1
    is_signed := true
    status := .firmado }

/-- The state after user 1 calls `create_declaration` twice, both times asking
for `declaration_type=correccion` with `correction_of_id=1`. -/
def c4_db2 : List Declaration :=
  okD (create_declaration
    (okD (create_declaration [c4_original] [1] 1 none 2024 .correccion 1 (some 1) 2
      "ICA-001-2024-2"))
    [1] 1 none 2024 .correccion 1 (some 1) 3 "ICA-001-2024-3")

/-- Claim C4 is false on the code: `create_declaration` stores the caller's
`declaration_type` and `correction_of_id` verbatim, with no uniqueness guard,
so two plain create calls turn a state satisfying the at-most-one-Correction
invariant into one with two Corrections referencing declaration 1. -/
theorem c4_create_breaks_correction_uniqueness :
    CorrectionUnique [c4_original] ∧ ¬ CorrectionUnique c4_db2 := by
  constructor
  · intro original_id
    exact le_trans (List.length_filter_le _ _) (by norm_num)
  · intro h
    exact absurd (h 1) (by decide)

/-- Claim C4 amended: the only mechanism in the code pointing at the invariant
is the `has_been_corrected` guard inside `correct()` — when the attribute is
present and `True`, a further `correct()` on the same original is rejected
with `AlreadyCorrected` — while `create_declaration` enforces nothing, so the
invariant is not preserved by `create`. -/
theorem c4_already_corrected_guard (db : List Declaration)
    (declaration_id current_user new_id : ℕ) (form_number : String)
    (original : Declaration)
    (hfind : db.find? (fun d => d.id == declaration_id) = some original)
    (howner : original.user_id = current_user)
    (hsigned : original.is_signed = true)
    (hattr : original.has_been_corrected_attr = some true) :
    create_correction_declaration db declaration_id current_user new_id form_number
      = .error .alreadyCorrected := by
  unfold create_correction_declaration
  rw [hfind]
  simp [howner, hsigned, hattr]

/-- Concrete declaration for the C4 witness: signed Initial whose in-memory
`has_been_corrected` attribute is present and `True`. -/
def c4_flagged : Declaration :=
  { c4_original with has_been_corrected_attr := some true }

/-- Witness for the amended claim C4 at the concrete state `[c4_flagged]`. -/
theorem c4_witness :
    ([c4_flagged].find? (fun d => d.id == 1) = some c4_flagged ∧
     c4_flagged.user_id = 1 ∧
     c4_flagged.is_signed = true ∧
     c4_flagged.has_been_corrected_attr = some true) ∧
    create_correction_declaration [c4_flagged] 1 1 2 "ICA-001-2024-2"
      = .error .alreadyCorrected :=
  ⟨⟨rfl, rfl, rfl, rfl⟩,
   c4_already_corrected_guard [c4_flagged] 1 1 2 "ICA-001-2024-2" c4_flagged
     rfl rfl rfl rfl⟩

/-! Claim C5. -/

/-- Concrete correction declaration for claim C5: unsigned, type Correction,
referencing declaration 1, owned by user 7. -/
def c5_unsigned_correction : Declaration :=
  { id := 2
    tax_year := 2024
    declaration_type := .correccion
    form_number := "ICA-001-2024-2"
    user_id := 7
    municipality_id := 1
    correction_of_id := some 1
    is_signed := false
    status := .borrador }

/-- Claim C5 is false on the code: `correct()` on the UNSIGNED Correction
`c5_unsigned_correction` fails with `NotSigned` — the signature guard runs
before the is-it-a-correction guard — not with `CannotCorrectACorrection`. -/
theorem c5_unsigned_correction_fails_not_signed :
    create_correction_declaration [c5_unsigned_correction] 2 7 3 "ICA-001-2024-3"
      = .error .notSigned ∧
    ApiError.notSigned ≠ ApiError.cannotCorrectACorrection := by
  exact ⟨rfl, by decide⟩

/-- Claim C5 amended: `correct()` on a declaration of type Correction always
fails and never spawns a new declaration, but the error kind depends on the
earlier guards: `Forbidden` for a non-owner, `NotSigned` when unsigned,
`AttributeError` when signed but freshly loaded (see C3), `AlreadyCorrected`
when the in-memory flag is `True`, and only in the remaining case — signed,
flag present and `False` — the promised `CannotCorrectACorrection`. -/
theorem c5_correct_on_correction_always_fails (db : List Declaration)
    (declaration_id current_user new_id : ℕ) (form_number : String)
    (original : Declaration)
    (hfind : db.find? (fun d => d.id == declaration_id) = some original)
    (hcorr : original.correction_of_id.isSome = true) :
    create_correction_declaration db declaration_id current_user new_id form_number
      = .error
        (if original.user_id ≠ current_user then .forbidden
         else if original.is_signed = false then .notSigned
         else match original.has_been_corrected_attr with
           | none => .attributeError
           | some true => .alreadyCorrected
           | some false => .cannotCorrectACorrection) ∧
    ∀ db', create_correction_declaration db declaration_id current_user new_id
      form_number ≠ .ok db' := by
  have hmain : create_correction_declaration db declaration_id current_user new_id
      form_number
      = .error
        (if original.user_id ≠ current_user then .forbidden
         else if original.is_signed = false then .notSigned
         else match original.has_been_corrected_attr with
           | none => .attributeError
           | some true => .alreadyCorrected
           | some false => .cannotCorrectACorrection) := by
    unfold create_correction_declaration
    rw [hfind]
    by_cases howner : original.user_id = current_user
    · by_cases hsigned : original.is_signed = false
      · simp [howner, hsigned]
      · cases hattr : original.has_been_corrected_attr with
        | none => simp [howner, hsigned, hattr]
        | some b => cases b <;> simp [howner, hsigned, hattr, hcorr]
    · simp [howner]
  exact ⟨hmain, by intro db' hok; rw [hmain] at hok; exact Except.noConfusion hok⟩

/-- Witness for the amended claim C5 at the concrete state
`[c5_unsigned_correction]`: the guard chain lands on `NotSigned`. -/
theorem c5_witness :
    ([c5_unsigned_correction].find? (fun d => d.id == 2) = some c5_unsigned_correction ∧
     c5_unsigned_correction.correction_of_id.isSome = true) ∧
    create_correction_declaration [c5_unsigned_correction] 2 7 3 "ICA-001-2024-3"
      = .error .notSigned := by
  refine ⟨⟨rfl, rfl⟩, ?_⟩
  have h := (c5_correct_on_correction_always_fails [c5_unsigned_correction] 2 7 3
    "ICA-001-2024-3" c5_unsigned_correction rfl rfl).1
  rw [h]
  simp [c5_unsigned_correction]

/-! Claim C8. -/

/-- Claim C8 confirmed: signing an already-signed declaration fails with
`AlreadySigned` for ANY caller — the already-signed guard runs before the
ownership guard — and the returned state is the input state unchanged, so in
particular every stored `filing_number` is unchanged. -/
theorem c8_second_sign_fails_already_signed (st : ServerState)
    (declaration_id current_user : ℕ) (signature_image : String)
    (hashFn : String → String) (now : String) (declaration : Declaration)
    (hfind : st.declarations.find? (fun d => d.id == declaration_id) = some declaration)
    (hsigned : declaration.is_signed = true) :
    sign_declaration st declaration_id current_user signature_image hashFn now
      = (st, .error .alreadySigned) := by
  unfold sign_declaration
  rw [hfind]
  simp [hsigned]

/-- Concrete state for the C8 witness: declaration 1 is already signed and
owned by user 7. -/
def c8_signed : Declaration :=
  { id := 1
    tax_year := 2024
    declaration_type := .inicial
    form_number := "ICA-001-2024-1"
    filing_number := some "0000000000000001"
    user_id := 7
    municipality_id := 1
    is_signed := true
    status := .firmado }

/-- Server state for the C8 witness. -/
def c8_state : ServerState := { declarations := [c8_signed], configs := [] }

/-- Witness for claim C8: a second sign by user 9 — not the owner — on the
already-signed declaration 1 is rejected with `AlreadySigned` and the state,
filing number included, is untouched. -/
theorem c8_witness :
    (c8_state.declarations.find? (fun d => d.id == 1) = some c8_signed ∧
     c8_signed.is_signed = true) ∧
    sign_declaration c8_state 1 9 "firma" (fun s => s) "2025-01-01"
      = (c8_state, .error .alreadySigned) :=
  ⟨⟨rfl, rfl⟩,
   c8_second_sign_fails_already_signed c8_state 1 9 "firma" (fun s => s)
     "2025-01-01" c8_signed rfl rfl⟩

/-! Claim C9. -/

/-- Counter configuration with `currentValue = 0` for the C9 counterexample. -/
def c9_zero_config : WhiteLabelConfig :=
  { radicado_prefijo := some "RAD-"
    radicado_actual := some 0
    radicado_digitos := some 6 }

/-- Claim C9 is false on the code at `currentValue = 0`: Python's
`config.radicado_actual or 1` treats the stored 0 as falsy, so the allocation
formats 1 — "RAD-000001", not the claimed "RAD-000000" — and the counter jumps
from 0 to 2, not by exactly 1. -/
theorem c9_zero_counter_counterexample :
    allocate_radicado c9_zero_config
      = ("RAD-000001", { c9_zero_config with radicado_actual := some 2 }) ∧
    allocate_radicado c9_zero_config
      ≠ ("RAD-" ++ zfill (toString 0) 6,
         { c9_zero_config with radicado_actual := some (0 + 1) }) := by
  constructor
  · rfl
  · intro h
    have := congrArg (fun p => p.2.radicado_actual) h
    simp [allocate_radicado, c9_zero_config, pyOrNat, pyOrStr] at this

/-- Claim C9 amended: whenever the stored counter has `currentValue ≥ 1` and
`digitWidth ≥ 1` (a zero or missing value falls back to the defaults 1 and
16), allocation formats `prefix + zeroPad(currentValue, digitWidth)` and
advances the counter to `currentValue + 1`. -/
theorem c9_allocation_formats_and_increments (config : WhiteLabelConfig)
    (v w : ℕ)
    (hv : config.radicado_actual = some v)
    (hw : config.radicado_digitos = some w)
    (hv1 : 1 ≤ v) (hw1 : 1 ≤ w) :
    allocate_radicado config
      = (pyOrStr config.radicado_prefijo ++ zfill (toString v) w,
         { config with radicado_actual := some (v + 1) }) := by
  cases v with
  | zero => exact absurd hv1 (by decide)
  | succ k =>
    cases w with
    | zero => exact absurd hw1 (by decide)
    | succ j => simp [allocate_radicado, pyOrNat, hv, hw]

/-- Counter configuration of the spec's Example C: prefix "RAD-", current
value 1, six digits. -/
def c9_example_config : WhiteLabelConfig :=
  { radicado_prefijo := some "RAD-"
    radicado_actual := some 1
    radicado_digitos := some 6 }

/-- Witness for the amended claim C9: the Example-C counter yields
"RAD-000001" and advances to 2. -/
theorem c9_witness :
    (c9_example_config.radicado_actual = some 1 ∧
     c9_example_config.radicado_digitos = some 6 ∧
     1 ≤ 1 ∧ (1 : ℕ) ≤ 6) ∧
    allocate_radicado c9_example_config
      = ("RAD-000001", { c9_example_config with radicado_actual := some 2 }) := by
  refine ⟨⟨rfl, rfl, le_refl 1, by decide⟩, ?_⟩
  have h := c9_allocation_formats_and_increments c9_example_config 1 6 rfl rfl
    (le_refl 1) (by decide)
  rw [h]
  rfl

/-! Claim C10. -/

/-- Claim C10 confirmed: for EVERY stored declaration — no hypothesis
whatsoever on its status, signature state or owner, and an arbitrary
authenticated caller — `calculate()` succeeds, returns the engine's result for
the stored rows, and the updated row keeps its identity and signature state
while its `settlement.row_30_ica_tax`, `result.amount_to_pay` and
`result.balance_in_favor` are overwritten with the recomputed values. -/
theorem c10_calculate_no_state_or_owner_guard (db : List Declaration)
    (declaration_id current_user : ℕ) (d : Declaration)
    (hfind : db.find? (fun x => x.id == declaration_id) = some d) :
    ∃ db' result,
      calculate_declaration db declaration_id current_user = .ok (db', result) ∧
      result = calculate_full_declaration
        (engineIncomeData d.income_base)
        (d.activities.map engineActivityData)
        (engineSettlementData d.settlement)
        (engineCreditsData d.discounts) ∧
      ∃ d', d' ∈ db' ∧
        d'.id = d.id ∧
        d'.is_signed = d.is_signed ∧
        d'.user_id = d.user_id ∧
        d'.settlement.map (fun s => s.row_30_ica_tax)
          = d.settlement.map (fun _ => result.row_30_ica_tax) ∧
        d'.result.map (fun r => r.amount_to_pay)
          = d.result.map (fun _ => result.amount_to_pay) ∧
        d'.result.map (fun r => r.balance_in_favor)
          = d.result.map (fun _ => result.balance_in_favor) := by
  have hp : (d.id == declaration_id) = true := by
    simpa using List.find?_some hfind
  have hmem : d ∈ db := List.mem_of_find?_eq_some hfind
  unfold calculate_declaration
  rw [hfind]
  refine ⟨_, _, rfl, rfl, ?_⟩
  refine ⟨_, List.mem_map_of_mem _ hmem, ?_⟩
  simp only [hp, if_true]
  refine ⟨trivial, trivial, trivial, ?_, ?_, ?_⟩
  · cases d.settlement <;> rfl
  · cases d.result <;> rfl
  · cases d.result <;> rfl

/-- Concrete state for the C10 witness: declaration 1 is SIGNED and owned by
user 7; the caller below is user 99. -/
def c10_declaration : Declaration :=
  { id := 1
    tax_year := 2024
    declaration_type := .inicial
    form_number := "ICA-001-2024-1"
    filing_number := some "0000000000000001"
    user_id := 7
    municipality_id := 1
    is_signed := true
    status := .firmado
    income_base := some { row_8_ordinary_income := 1000, row_9_extraordinary_income := 500 }
    activities := [{ ciiu_code := "G4711", income := 1000, tax_rate := 5 }]
    settlement := some { row_31_signs_boards := 10, row_32_surcharge := 5 }
    discounts := some { withholdings := 3 }
    result := some { amount_to_pay := 0, balance_in_favor := 0 } }

/-- Witness for claim C10: user 99, who does not own the signed declaration 1,
still gets a successful recalculation that overwrites the stored totals. -/
theorem c10_witness :
    ([c10_declaration].find? (fun x => x.id == 1) = some c10_declaration) ∧
    ∃ db' result,
      calculate_declaration [c10_declaration] 1 99 = .ok (db', result) ∧
      result = calculate_full_declaration
        (engineIncomeData c10_declaration.income_base)
        (c10_declaration.activities.map engineActivityData)
        (engineSettlementData c10_declaration.settlement)
        (engineCreditsData c10_declaration.discounts) ∧
      ∃ d', d' ∈ db' ∧
        d'.id = c10_declaration.id ∧
        d'.is_signed = c10_declaration.is_signed ∧
        d'.user_id = c10_declaration.user_id ∧
        d'.settlement.map (fun s => s.row_30_ica_tax)
          = c10_declaration.settlement.map (fun _ => result.row_30_ica_tax) ∧
        d'.result.map (fun r => r.amount_to_pay)
          = c10_declaration.result.map (fun _ => result.amount_to_pay) ∧
        d'.result.map (fun r => r.balance_in_favor)
          = c10_declaration.result.map (fun _ => result.balance_in_favor) :=
  ⟨rfl, c10_calculate_no_state_or_owner_guard [c10_declaration] 1 99
    c10_declaration rfl⟩

end ICA
